import Mathlib

/-!
Verification of the SchoolElectionApp repository (Django polling app).

The repository's visible source is two declarative modules:
* `voteApp/urls.py` — the URL routing table `urlpatterns` under app
  namespace `polls`;
* `voteApp/admin.py` — admin-site configuration for the `Question` and
  `Choice` entities (`ChoiceInline`, `QuestionAdmin`, `ChoiceAdmin`, and
  two `admin.site.register` calls).

We embed both modules as Lean data, and embed Django's first-match URL
resolution over path patterns (a pattern is a list of segments, each a
literal or an `<int:...>` converter; the `int` converter accepts exactly
the nonempty strings of decimal digits).
-/

namespace SchoolElection

/-- A single segment of a Django `path()` pattern: either a literal path
segment or an `<int:name>` converter capturing a decimal integer. -/
inductive Seg where
  | lit : String → Seg
  | intParam : String → Seg
deriving DecidableEq, Repr

/-- One entry of `urlpatterns`: the pattern (as a list of segments; the
empty pattern `''` is `[]`), the view function it dispatches to, and the
route name given by `name=...`. -/
structure Route where
  pattern : List Seg
  view : String
  name : String
deriving DecidableEq, Repr

/-- Django's `int` path converter matches a segment iff it is a nonempty
string of decimal digits (regex `[0-9]+`). -/
def isIntSeg (s : String) : Bool :=
  !s.data.isEmpty && s.data.all Char.isDigit

/-- Whether one pattern segment matches one concrete path segment. -/
def segMatches : Seg → String → Bool
  | .lit l, s => s == l
  | .intParam _, s => isIntSeg s

/-- Whether a whole pattern matches a concrete path (given as its list of
slash-separated segments; the root path is `[]`). All segments must
match and the lengths must agree. -/
def patMatches : List Seg → List String → Bool
  | [], [] => true
  | p :: ps, s :: ss => segMatches p s && patMatches ps ss
  | _, _ => false

/-- Django URL resolution over a route list: the first route whose
pattern matches the request path wins; `none` if no route matches. -/
def resolve (routes : List Route) (segs : List String) : Option Route :=
  routes.find? (fun r => patMatches r.pattern segs)

/-- The `app_name = "polls"` declaration from `voteApp/urls.py`. -/
def app_name : String := "polls"

/-- The route `path('', views.index, name='index')`. -/
def indexRoute : Route := ⟨[], "index", "index"⟩

/-- The route `path('<int:question_id>/', views.detail, name='detail')`. -/
def detailRoute : Route := ⟨[.intParam "question_id"], "detail", "detail"⟩

/-- The route `path('<int:question_id>/results/', views.results, name='results')`. -/
def resultsRoute : Route :=
  ⟨[.intParam "question_id", .lit "results"], "results", "results"⟩

/-- The route `path('<int:question_id>/vote/', views.vote, name='vote')`. -/
def voteRoute : Route :=
  ⟨[.intParam "question_id", .lit "vote"], "vote", "vote"⟩

/-- The route `path('', views.home, name='home')`. -/
def homeRoute : Route := ⟨[], "home", "home"⟩

/-- The `urlpatterns` list from `voteApp/urls.py`, in source order. -/
def urlpatterns : List Route :=
  [indexRoute, detailRoute, resultsRoute, voteRoute, homeRoute]

/-- One entry of a `ModelAdmin.fieldsets` declaration: a title (which is
`none` for the `None` section), the fields shown, and the CSS classes of
the section. -/
structure Fieldset where
  title : Option String
  fields : List String
  classes : List String
deriving DecidableEq, Repr

/-- An `admin.TabularInline` subclass: its model, the number of extra
empty forms, and the fields shown. -/
structure TabularInline where
  model : String
  extra : Nat
  fields : List String
deriving DecidableEq, Repr

/-- An `admin.ModelAdmin` subclass: the declarative options set by the
admin classes in `voteApp/admin.py`. -/
structure ModelAdmin where
  fieldsets : List Fieldset
  inlines : List TabularInline
  list_display : List String
  list_filter : List String
  search_fields : List String
deriving DecidableEq, Repr

/-- The `ChoiceInline` class from `voteApp/admin.py`: tabular inline for
`Choice` with `extra = 3` and `fields = ('choice_text', 'image', 'votes')`. -/
def ChoiceInline : TabularInline :=
  ⟨"Choice", 3, ["choice_text", "image", "votes"]⟩

/-- The `QuestionAdmin` class from `voteApp/admin.py`. -/
def QuestionAdmin : ModelAdmin :=
  ⟨[⟨none, ["question_text"], []⟩,
    ⟨some "Date Information", ["pub_date"], ["collapse"]⟩],
   [ChoiceInline],
   ["question_text", "pub_date", "was_published_recently"],
   ["pub_date"],
   ["question_text"]⟩

/-- The `ChoiceAdmin` class from `voteApp/admin.py` (it declares no
fieldsets and no inlines). -/
def ChoiceAdmin : ModelAdmin :=
  ⟨[], [],
   ["choice_text", "question", "image", "votes"],
   ["question"],
   ["choice_text"]⟩

/-- The admin-site registry built by the two `admin.site.register` calls
at the bottom of `voteApp/admin.py`, in source order. -/
def adminRegistry : List (String × ModelAdmin) :=
  [("Question", QuestionAdmin), ("Choice", ChoiceAdmin)]

/-- Django renders `inline.extra` additional empty forms in an inline
editor irrespective of the number of existing related objects (the
default `get_extra`); `existing` is that number. -/
def extraFormsShown (inline : TabularInline) (_existing : Nat) : Nat :=
  inline.extra

/-- C1: the URL configuration declares exactly five routes — the empty
path to `views.index` (named `index`), `<int:question_id>/` to
`views.detail` (named `detail`), `<int:question_id>/results/` to
`views.results` (named `results`), `<int:question_id>/vote/` to
`views.vote` (named `vote`), and the empty path again to `views.home`
(named `home`) — under app namespace `polls`. -/
theorem c1_five_routes_declared :
    urlpatterns.length = 5 ∧
    urlpatterns.map Route.pattern =
      [[], [.intParam "question_id"],
       [.intParam "question_id", .lit "results"],
       [.intParam "question_id", .lit "vote"], []] ∧
    urlpatterns.map Route.view = ["index", "detail", "results", "vote", "home"] ∧
    urlpatterns.map Route.name = ["index", "detail", "results", "vote", "home"] ∧
    app_name = "polls" := by
  refine ⟨rfl, ?_, rfl, rfl, rfl⟩
  decide

/-- C2: both the first route (`index`) and the last route (`home`) bind
the empty path, so first-match resolution sends the root path to
`views.index`, and no request path whatsoever resolves to `views.home`. -/
theorem c2_home_shadowed_by_index :
    (resolve urlpatterns []).map Route.view = some "index" ∧
    ∀ segs r, resolve urlpatterns segs = some r → r.view ≠ "home" := by
  refine ⟨rfl, ?_⟩
  intro segs r h hv
  have hmem : r ∈ urlpatterns := List.mem_of_find?_eq_some h
  have hmatch : patMatches r.pattern segs = true := by
    simpa using List.find?_some h
  fin_cases hmem
  · exact absurd hv (by decide)
  · exact absurd hv (by decide)
  · exact absurd hv (by decide)
  · exact absurd hv (by decide)
  · cases segs with
    | nil =>
        have hidx : resolve urlpatterns [] = some indexRoute := rfl
        rw [h] at hidx
        exact absurd (Option.some.inj hidx) (by decide)
    | cons s ss =>
        simp [homeRoute, patMatches] at hmatch

/-- Witness for C2 at the root path: resolution there yields the index
route, whose view is not `home`. -/
theorem c2_home_shadowed_by_index_witness : indexRoute.view ≠ "home" :=
  c2_home_shadowed_by_index.2 [] indexRoute rfl

/-- C3: exactly the two entities `Question` and `Choice` are registered
with the admin site, each with its custom admin class. -/
theorem c3_two_models_registered :
    adminRegistry.length = 2 ∧
    adminRegistry.map Prod.fst = ["Question", "Choice"] ∧
    adminRegistry.lookup "Question" = some QuestionAdmin ∧
    adminRegistry.lookup "Choice" = some ChoiceAdmin := by
  decide

/-- C4: the Choice admin list columns are exactly
`(choice_text, question, image, votes)` and the inline editor's fields
are exactly `(choice_text, image, votes)`. -/
theorem c4_choice_display_and_inline_fields :
    ChoiceAdmin.list_display = ["choice_text", "question", "image", "votes"] ∧
    ChoiceInline.fields = ["choice_text", "image", "votes"] := by
  decide

/-- C5: `QuestionAdmin.fieldsets` places `question_text` in an untitled
section and `pub_date` in a collapsible section titled
`Date Information`, and the list columns are exactly
`(question_text, pub_date, was_published_recently)`. -/
theorem c5_question_fieldsets_and_display :
    QuestionAdmin.fieldsets.map Fieldset.title = [none, some "Date Information"] ∧
    QuestionAdmin.fieldsets.map Fieldset.fields = [["question_text"], ["pub_date"]] ∧
    QuestionAdmin.fieldsets.map Fieldset.classes = [[], ["collapse"]] ∧
    QuestionAdmin.list_display =
      ["question_text", "pub_date", "was_published_recently"] := by
  decide

/-- C6: the Question admin supports inline editing of Choices —
`QuestionAdmin.inlines` contains exactly `ChoiceInline`, a tabular
inline whose model is `Choice`. -/
theorem c6_question_inlines_choice :
    QuestionAdmin.inlines = [ChoiceInline] ∧ ChoiceInline.model = "Choice" := by
  decide

/-- C7: the visible surface of the vote-tallying subsystem — every path
whose first segment is a decimal integer followed by `results/` resolves
to `views.results`, and `votes` is a column of the Choice admin list
display. -/
theorem c7_results_surface :
    (∀ s, isIntSeg s = true →
      (resolve urlpatterns [s, "results"]).map Route.view = some "results") ∧
    "votes" ∈ ChoiceAdmin.list_display := by
  refine ⟨?_, by decide⟩
  intro s hs
  simp [resolve, urlpatterns, List.find?, patMatches, segMatches,
    indexRoute, detailRoute, resultsRoute, hs]

/-- Witness for C7: the path `5/results/` satisfies the integer-segment
hypothesis and resolves to the results view. -/
theorem c7_results_surface_witness :
    (resolve urlpatterns ["5", "results"]).map Route.view = some "results" :=
  c7_results_surface.1 "5" rfl

/-- C8: `QuestionAdmin` filters on `pub_date` and searches on
`question_text`; `ChoiceAdmin` filters on `question` and searches on
`choice_text`; no other filter or search fields are declared. -/
theorem c8_filter_and_search_fields :
    QuestionAdmin.list_filter = ["pub_date"] ∧
    QuestionAdmin.search_fields = ["question_text"] ∧
    ChoiceAdmin.list_filter = ["question"] ∧
    ChoiceAdmin.search_fields = ["choice_text"] := by
  decide

/-- C9: for every request path whose first segment is not a decimal
integer, none of the detail, results, or vote patterns matches, and
resolution over the declared routes yields no handler at all. -/
theorem c9_nonint_first_segment_rejected (s : String) (rest : List String)
    (h : isIntSeg s = false) :
    patMatches detailRoute.pattern (s :: rest) = false ∧
    patMatches resultsRoute.pattern (s :: rest) = false ∧
    patMatches voteRoute.pattern (s :: rest) = false ∧
    resolve urlpatterns (s :: rest) = none := by
  refine ⟨?_, ?_, ?_, ?_⟩ <;>
    simp [resolve, urlpatterns, List.find?, patMatches, segMatches,
      indexRoute, detailRoute, resultsRoute, voteRoute, homeRoute, h]

/-- Witness for C9: the path `abc/` has a non-integer first segment and
resolves to no handler. -/
theorem c9_nonint_first_segment_rejected_witness :
    resolve urlpatterns ["abc"] = none :=
  (c9_nonint_first_segment_rejected "abc" [] rfl).2.2.2

/-- C10: the inline Choice editor displays exactly 3 extra empty forms
(`ChoiceInline.extra = 3`) regardless of how many Choices already
exist. -/
theorem c10_three_extra_forms :
    ∀ existing : Nat, extraFormsShown ChoiceInline existing = 3 :=
  fun _ => rfl

end SchoolElection
